import Mathlib

/-!
Shallow embedding of `src/d3d11/d3d11_blend.cpp` (DXVK's D3D11 blend state
translation).  D3D11 enumerants (`D3D11_BLEND`, `D3D11_BLEND_OP`) are C enums
carried as machine integers, so they are modelled as `Nat` holding the header
values; the Vulkan-side results are closed inductive types.  The `Logger::err`
side channel is made explicit: each decode function returns its result together
with the list of diagnostics it emitted.
-/

namespace dxvk

/-- D3D11_BLEND header values (d3d11.h). Values 12 and 13 are unassigned. -/
def D3D11_BLEND_ZERO             : Nat := 1
def D3D11_BLEND_ONE              : Nat := 2
def D3D11_BLEND_SRC_COLOR        : Nat := 3
def D3D11_BLEND_INV_SRC_COLOR    : Nat := 4
def D3D11_BLEND_SRC_ALPHA        : Nat := 5
def D3D11_BLEND_INV_SRC_ALPHA    : Nat := 6
def D3D11_BLEND_DEST_ALPHA       : Nat := 7
def D3D11_BLEND_INV_DEST_ALPHA   : Nat := 8
def D3D11_BLEND_DEST_COLOR       : Nat := 9
def D3D11_BLEND_INV_DEST_COLOR   : Nat := 10
def D3D11_BLEND_SRC_ALPHA_SAT    : Nat := 11
def D3D11_BLEND_BLEND_FACTOR     : Nat := 14
def D3D11_BLEND_INV_BLEND_FACTOR : Nat := 15
def D3D11_BLEND_SRC1_COLOR       : Nat := 16
def D3D11_BLEND_INV_SRC1_COLOR   : Nat := 17
def D3D11_BLEND_SRC1_ALPHA       : Nat := 18
def D3D11_BLEND_INV_SRC1_ALPHA   : Nat := 19

/-- D3D11_BLEND_OP header values (d3d11.h). -/
def D3D11_BLEND_OP_ADD          : Nat := 1
def D3D11_BLEND_OP_SUBTRACT     : Nat := 2
def D3D11_BLEND_OP_REV_SUBTRACT : Nat := 3
def D3D11_BLEND_OP_MIN          : Nat := 4
def D3D11_BLEND_OP_MAX          : Nat := 5

/-- The declared legal domain of `D3D11_BLEND` (the `case` labels of
`DecodeBlendFactor`'s switch). -/
def legalBlendFactors : List Nat :=
  [1, 2, 3, 4, 5, 6, 7, 8, 9, 10, 11, 14, 15, 16, 17, 18, 19]

/-- The declared legal domain of `D3D11_BLEND_OP` (the `case` labels of
`DecodeBlendOp`'s switch). -/
def legalBlendOps : List Nat := [1, 2, 3, 4, 5]

/-- `VkBlendFactor` values reachable from this translation unit. -/
inductive VkBlendFactor where
  | zero
  | one
  | srcColor
  | oneMinusSrcColor
  | dstColor
  | oneMinusDstColor
  | srcAlpha
  | oneMinusSrcAlpha
  | dstAlpha
  | oneMinusDstAlpha
  | constantColor
  | oneMinusConstantColor
  | constantAlpha
  | oneMinusConstantAlpha
  | srcAlphaSaturate
  | src1Color
  | oneMinusSrc1Color
  | src1Alpha
  | oneMinusSrc1Alpha
  deriving DecidableEq

/-- `VkBlendOp` values reachable from this translation unit. -/
inductive VkBlendOp where
  | add
  | subtract
  | reverseSubtract
  | opMin
  | opMax
  deriving DecidableEq

/-- A diagnostic emitted through `Logger::err`, carrying the offending
enumerant value exactly as `str::format` would print it. -/
inductive Diag where
  | invalidBlendFactor (value : Nat)
  | invalidBlendOp (value : Nat)
  deriving DecidableEq

/-- One per-render-target sub-record of `D3D11_BLEND_DESC`
(`D3D11_RENDER_TARGET_BLEND_DESC` from d3d11.h). -/
structure D3D11_RENDER_TARGET_BLEND_DESC where
  BlendEnable : Bool
  SrcBlend : Nat
  DestBlend : Nat
  BlendOp : Nat
  SrcBlendAlpha : Nat
  DestBlendAlpha : Nat
  BlendOpAlpha : Nat
  RenderTargetWriteMask : Nat
  deriving DecidableEq

/-- `D3D11_BLEND_DESC` from d3d11.h: two flags plus eight fixed per-target
sub-records. -/
structure D3D11_BLEND_DESC where
  AlphaToCoverageEnable : Bool
  IndependentBlendEnable : Bool
  RenderTarget : Fin 8 → D3D11_RENDER_TARGET_BLEND_DESC

/-- `DxvkBlendMode`: the resolved per-target blend mode handed to the
backend. -/
structure DxvkBlendMode where
  enableBlending : Bool
  colorSrcFactor : VkBlendFactor
  colorDstFactor : VkBlendFactor
  colorBlendOp : VkBlendOp
  alphaSrcFactor : VkBlendFactor
  alphaDstFactor : VkBlendFactor
  alphaBlendOp : VkBlendOp
  writeMask : Nat
  deriving DecidableEq

/-- `DxvkMultisampleState`.  `minSampleShading` is a `float` in the source
but the translation unit only ever stores the constant `0.0f` in it, so it is
modelled as a `Nat`. -/
structure DxvkMultisampleState where
  sampleMask : Nat
  enableAlphaToCoverage : Bool
  enableAlphaToOne : Bool
  enableSampleShading : Bool
  minSampleShading : Nat
  deriving DecidableEq

/-- `D3D11BlendState::DecodeBlendFactor`: the switch over `blendFactor`,
returning the mapped `VkBlendFactor` and the diagnostics emitted (empty for a
`case` label, one `Logger::err` entry plus the `VK_BLEND_FACTOR_ZERO` fallback
otherwise). -/
def DecodeBlendFactor (blendFactor : Nat) (isAlpha : Bool) :
    VkBlendFactor × List Diag :=
  if blendFactor = D3D11_BLEND_ZERO then (.zero, [])
  else if blendFactor = D3D11_BLEND_ONE then (.one, [])
  else if blendFactor = D3D11_BLEND_SRC_COLOR then (.srcColor, [])
  else if blendFactor = D3D11_BLEND_INV_SRC_COLOR then (.oneMinusSrcColor, [])
  else if blendFactor = D3D11_BLEND_SRC_ALPHA then (.srcAlpha, [])
  else if blendFactor = D3D11_BLEND_INV_SRC_ALPHA then (.oneMinusSrcAlpha, [])
  else if blendFactor = D3D11_BLEND_DEST_ALPHA then (.dstAlpha, [])
  else if blendFactor = D3D11_BLEND_INV_DEST_ALPHA then (.oneMinusDstAlpha, [])
  else if blendFactor = D3D11_BLEND_DEST_COLOR then (.dstColor, [])
  else if blendFactor = D3D11_BLEND_INV_DEST_COLOR then (.oneMinusDstColor, [])
  else if blendFactor = D3D11_BLEND_SRC_ALPHA_SAT then (.srcAlphaSaturate, [])
  else if blendFactor = D3D11_BLEND_BLEND_FACTOR then
    ((if isAlpha then .constantAlpha else .constantColor), [])
  else if blendFactor = D3D11_BLEND_INV_BLEND_FACTOR then
    ((if isAlpha then .oneMinusConstantAlpha else .oneMinusConstantColor), [])
  else if blendFactor = D3D11_BLEND_SRC1_COLOR then (.src1Color, [])
  else if blendFactor = D3D11_BLEND_INV_SRC1_COLOR then (.oneMinusSrc1Color, [])
  else if blendFactor = D3D11_BLEND_SRC1_ALPHA then (.src1Alpha, [])
  else if blendFactor = D3D11_BLEND_INV_SRC1_ALPHA then (.oneMinusSrc1Alpha, [])
  else (.zero, [.invalidBlendFactor blendFactor])

/-- `D3D11BlendState::DecodeBlendOp`: the switch over `blendOp`, returning the
mapped `VkBlendOp` and the diagnostics emitted (empty for a `case` label, one
`Logger::err` entry plus the `VK_BLEND_OP_ADD` fallback otherwise). -/
def DecodeBlendOp (blendOp : Nat) : VkBlendOp × List Diag :=
  if blendOp = D3D11_BLEND_OP_ADD then (.add, [])
  else if blendOp = D3D11_BLEND_OP_SUBTRACT then (.subtract, [])
  else if blendOp = D3D11_BLEND_OP_REV_SUBTRACT then (.reverseSubtract, [])
  else if blendOp = D3D11_BLEND_OP_MIN then (.opMin, [])
  else if blendOp = D3D11_BLEND_OP_MAX then (.opMax, [])
  else (.add, [.invalidBlendOp blendOp])

/-- `D3D11BlendState::DecodeBlendMode`: builds the `DxvkBlendMode` for one
sub-record, decoding both factor pairs and both ops and copying `BlendEnable`
and `RenderTargetWriteMask` through; diagnostics accumulate in the order of
the decode calls. -/
def DecodeBlendMode (blendDesc : D3D11_RENDER_TARGET_BLEND_DESC) :
    DxvkBlendMode × List Diag :=
  let csf := DecodeBlendFactor blendDesc.SrcBlend false
  let cdf := DecodeBlendFactor blendDesc.DestBlend false
  let cop := DecodeBlendOp blendDesc.BlendOp
  let asf := DecodeBlendFactor blendDesc.SrcBlendAlpha true
  let adf := DecodeBlendFactor blendDesc.DestBlendAlpha true
  let aop := DecodeBlendOp blendDesc.BlendOpAlpha
  ({ enableBlending := blendDesc.BlendEnable
     colorSrcFactor := csf.1
     colorDstFactor := cdf.1
     colorBlendOp := cop.1
     alphaSrcFactor := asf.1
     alphaDstFactor := adf.1
     alphaBlendOp := aop.1
     writeMask := blendDesc.RenderTargetWriteMask },
   csf.2 ++ cdf.2 ++ cop.2 ++ asf.2 ++ adf.2 ++ aop.2)

/-- The state a `D3D11BlendState` object holds after construction (the device
pointer carries no blend semantics and is omitted). -/
structure D3D11BlendState where
  m_desc : D3D11_BLEND_DESC
  m_blendModes : Fin 8 → DxvkBlendMode
  m_msState : DxvkMultisampleState

/-- `D3D11BlendState::D3D11BlendState`: stores `desc` verbatim in `m_desc`,
resolves the 8 blend modes (replicating `RenderTarget[0]` when
`IndependentBlendEnable` is false), and fills the multisample state with
`sampleMask = 0` (set during bind), `enableAlphaToCoverage` from the
descriptor and fixed defaults elsewhere.  Returns the constructed object with
the diagnostics of the eight `DecodeBlendMode` calls in loop order. -/
def D3D11BlendState.create (desc : D3D11_BLEND_DESC) :
    D3D11BlendState × List Diag :=
  let decoded : Fin 8 → DxvkBlendMode × List Diag := fun i =>
    DecodeBlendMode
      (if desc.IndependentBlendEnable then desc.RenderTarget i
       else desc.RenderTarget 0)
  ({ m_desc := desc
     m_blendModes := fun i => (decoded i).1
     m_msState :=
       { sampleMask := 0
         enableAlphaToCoverage := desc.AlphaToCoverageEnable
         enableAlphaToOne := false
         enableSampleShading := false
         minSampleShading := 0 } },
   (List.ofFn fun i : Fin 8 => (decoded i).2).flatten)

/-- `D3D11BlendState::GetDesc`: copies out the stored descriptor. -/
def D3D11BlendState.GetDesc (s : D3D11BlendState) : D3D11_BLEND_DESC :=
  s.m_desc

/-- The calls `BindToContext` issues against the `DxvkContext`. -/
inductive CtxCall where
  | setBlendMode (slot : Nat) (mode : DxvkBlendMode)
  | setMultisampleState (ms : DxvkMultisampleState)
  deriving DecidableEq

/-- The local `msState` of `BindToContext`: a copy of `m_msState` with only
`sampleMask` overwritten by the caller-supplied mask. -/
def D3D11BlendState.mergedMsState (s : D3D11BlendState) (sampleMask : Nat) :
    DxvkMultisampleState :=
  { s.m_msState with sampleMask := sampleMask }

/-- `D3D11BlendState::BindToContext`: a `const` method; it returns the object
state unchanged together with the trace of context calls it issued: one
`setBlendMode(i, m_blendModes.at(i))` per slot in loop order, then one
`setMultisampleState` with the locally merged multisample state. -/
def D3D11BlendState.BindToContext (s : D3D11BlendState) (sampleMask : Nat) :
    D3D11BlendState × List CtxCall :=
  (s,
   (List.ofFn fun i : Fin 8 => CtxCall.setBlendMode i.val (s.m_blendModes i))
     ++ [CtxCall.setMultisampleState (s.mergedMsState sampleMask)])

/-- Sample sub-record: the D3D11 default render-target blend description. -/
def rtDefault : D3D11_RENDER_TARGET_BLEND_DESC :=
  { BlendEnable := false
    SrcBlend := D3D11_BLEND_ONE
    DestBlend := D3D11_BLEND_ZERO
    BlendOp := D3D11_BLEND_OP_ADD
    SrcBlendAlpha := D3D11_BLEND_ONE
    DestBlendAlpha := D3D11_BLEND_ZERO
    BlendOpAlpha := D3D11_BLEND_OP_ADD
    RenderTargetWriteMask := 15 }

/-- Sample sub-record: standard alpha blending. -/
def rtSample : D3D11_RENDER_TARGET_BLEND_DESC :=
  { BlendEnable := true
    SrcBlend := D3D11_BLEND_SRC_ALPHA
    DestBlend := D3D11_BLEND_INV_SRC_ALPHA
    BlendOp := D3D11_BLEND_OP_ADD
    SrcBlendAlpha := D3D11_BLEND_ONE
    DestBlendAlpha := D3D11_BLEND_ZERO
    BlendOpAlpha := D3D11_BLEND_OP_ADD
    RenderTargetWriteMask := 15 }

/-- Sample sub-record distinct from `rtDefault` and `rtSample`. -/
def rtSample2 : D3D11_RENDER_TARGET_BLEND_DESC :=
  { BlendEnable := true
    SrcBlend := D3D11_BLEND_DEST_COLOR
    DestBlend := D3D11_BLEND_INV_DEST_COLOR
    BlendOp := D3D11_BLEND_OP_SUBTRACT
    SrcBlendAlpha := D3D11_BLEND_ZERO
    DestBlendAlpha := D3D11_BLEND_ONE
    BlendOpAlpha := D3D11_BLEND_OP_REV_SUBTRACT
    RenderTargetWriteMask := 7 }

/-- Sample descriptor with independent blend disabled and differing
sub-records in slots 0 and 1..7. -/
def descA : D3D11_BLEND_DESC :=
  { AlphaToCoverageEnable := true
    IndependentBlendEnable := false
    RenderTarget := fun i => if i.val = 0 then rtSample else rtDefault }

/-- Sample descriptor with independent blend enabled. -/
def descB : D3D11_BLEND_DESC :=
  { AlphaToCoverageEnable := false
    IndependentBlendEnable := true
    RenderTarget := fun i => if i.val = 0 then rtSample else rtDefault }

/-- Sample descriptor agreeing with `descB` on slot 0 but not on slots
1..7. -/
def descC : D3D11_BLEND_DESC :=
  { AlphaToCoverageEnable := false
    IndependentBlendEnable := true
    RenderTarget := fun i => if i.val = 0 then rtSample else rtSample2 }

theorem DecodeBlendFactor_invalid (v : Nat) (a : Bool)
    (hv : v ∉ legalBlendFactors) :
    DecodeBlendFactor v a = (.zero, [.invalidBlendFactor v]) := by
  simp only [legalBlendFactors, List.mem_cons, List.not_mem_nil, or_false,
    not_or] at hv
  obtain ⟨h1, h2, h3, h4, h5, h6, h7, h8, h9, h10, h11, h12, h13, h14, h15,
    h16, h17⟩ := hv
  simp [DecodeBlendFactor, D3D11_BLEND_ZERO, D3D11_BLEND_ONE,
    D3D11_BLEND_SRC_COLOR, D3D11_BLEND_INV_SRC_COLOR, D3D11_BLEND_SRC_ALPHA,
    D3D11_BLEND_INV_SRC_ALPHA, D3D11_BLEND_DEST_ALPHA,
    D3D11_BLEND_INV_DEST_ALPHA, D3D11_BLEND_DEST_COLOR,
    D3D11_BLEND_INV_DEST_COLOR, D3D11_BLEND_SRC_ALPHA_SAT,
    D3D11_BLEND_BLEND_FACTOR, D3D11_BLEND_INV_BLEND_FACTOR,
    D3D11_BLEND_SRC1_COLOR, D3D11_BLEND_INV_SRC1_COLOR,
    D3D11_BLEND_SRC1_ALPHA, D3D11_BLEND_INV_SRC1_ALPHA,
    h1, h2, h3, h4, h5, h6, h7, h8, h9, h10, h11, h12, h13, h14, h15, h16, h17]

theorem DecodeBlendOp_invalid (w : Nat) (hw : w ∉ legalBlendOps) :
    DecodeBlendOp w = (.add, [.invalidBlendOp w]) := by
  simp only [legalBlendOps, List.mem_cons, List.not_mem_nil, or_false,
    not_or] at hw
  obtain ⟨h1, h2, h3, h4, h5⟩ := hw
  simp [DecodeBlendOp, D3D11_BLEND_OP_ADD, D3D11_BLEND_OP_SUBTRACT,
    D3D11_BLEND_OP_REV_SUBTRACT, D3D11_BLEND_OP_MIN, D3D11_BLEND_OP_MAX,
    h1, h2, h3, h4, h5]

/-- C1: with `IndependentBlendEnable = false`, construction resolves every one
of the 8 blend-mode slots to the resolution of `RenderTarget[0]`, so all
entries are identical. -/
theorem create_replicates_slot0 (desc : D3D11_BLEND_DESC)
    (h : desc.IndependentBlendEnable = false) :
    ∀ i : Fin 8, (D3D11BlendState.create desc).1.m_blendModes i =
      (DecodeBlendMode (desc.RenderTarget 0)).1 := by
  intro i
  simp [D3D11BlendState.create, h]

/-- C1 witness: `descA` has independent blend disabled, and the theorem
applies to it. -/
theorem create_replicates_slot0_witness :
    descA.IndependentBlendEnable = false ∧
      ∀ i : Fin 8, (D3D11BlendState.create descA).1.m_blendModes i =
        (DecodeBlendMode (descA.RenderTarget 0)).1 :=
  ⟨rfl, create_replicates_slot0 descA rfl⟩

/-- C2: with independent blend enabled in both runs, the resolved mode of
slot `i` depends only on `RenderTarget[i]`: two descriptors that agree on
sub-record `i` resolve slot `i` identically. -/
theorem create_slot_isolation (d1 d2 : D3D11_BLEND_DESC) (i : Fin 8)
    (h1 : d1.IndependentBlendEnable = true)
    (h2 : d2.IndependentBlendEnable = true)
    (hi : d1.RenderTarget i = d2.RenderTarget i) :
    (D3D11BlendState.create d1).1.m_blendModes i =
      (D3D11BlendState.create d2).1.m_blendModes i := by
  simp [D3D11BlendState.create, h1, h2, hi]

/-- C2 witness: `descB` and `descC` both enable independent blend, agree on
slot 0 and differ on slots 1..7; slot 0 resolves identically. -/
theorem create_slot_isolation_witness :
    descB.IndependentBlendEnable = true ∧
      descC.IndependentBlendEnable = true ∧
      descB.RenderTarget 0 = descC.RenderTarget 0 ∧
      descB.RenderTarget 1 ≠ descC.RenderTarget 1 ∧
      (D3D11BlendState.create descB).1.m_blendModes 0 =
        (D3D11BlendState.create descC).1.m_blendModes 0 :=
  ⟨rfl, rfl, by decide, by decide,
    create_slot_isolation descB descC 0 rfl rfl (by decide)⟩

/-- C3: both mapping functions are total Lean functions (they never abort);
every legal enumerant is handled by its own switch case and emits no
diagnostic, while any out-of-domain value yields the zero-factor
(resp. add-op) default together with exactly one diagnostic carrying the
offending value. -/
theorem decode_total_with_defaults (v w : Nat) (a : Bool)
    (hv : v ∉ legalBlendFactors) (hw : w ∉ legalBlendOps) :
    (∀ u ∈ legalBlendFactors, ∀ b : Bool, (DecodeBlendFactor u b).2 = []) ∧
      (∀ u ∈ legalBlendOps, (DecodeBlendOp u).2 = []) ∧
      DecodeBlendFactor v a = (.zero, [.invalidBlendFactor v]) ∧
      DecodeBlendOp w = (.add, [.invalidBlendOp w]) := by
  refine ⟨?_, ?_, DecodeBlendFactor_invalid v a hv, DecodeBlendOp_invalid w hw⟩
  · intro u hu b
    simp only [legalBlendFactors] at hu
    fin_cases hu <;> rfl
  · intro u hu
    simp only [legalBlendOps] at hu
    fin_cases hu <;> rfl

/-- C3 witness: 12 is an out-of-domain blend factor and 6 an out-of-domain
blend op; the theorem applies to them. -/
theorem decode_total_with_defaults_witness :
    12 ∉ legalBlendFactors ∧ 6 ∉ legalBlendOps ∧
      ((∀ u ∈ legalBlendFactors, ∀ b : Bool, (DecodeBlendFactor u b).2 = []) ∧
        (∀ u ∈ legalBlendOps, (DecodeBlendOp u).2 = []) ∧
        DecodeBlendFactor 12 true = (.zero, [.invalidBlendFactor 12]) ∧
        DecodeBlendOp 6 = (.add, [.invalidBlendOp 6])) :=
  ⟨by decide, by decide,
    decode_total_with_defaults 12 6 true (by decide) (by decide)⟩

/-- C4: binding issues exactly one `setBlendMode` per slot 0..7, in ascending
slot order, each with that slot's resolved mode, followed by exactly one
`setMultisampleState` whose argument is the stored template with only the
sample-mask field replaced by the caller's mask. -/
theorem bind_trace (s : D3D11BlendState) (sampleMask : Nat) :
    (s.BindToContext sampleMask).2 =
      [.setBlendMode 0 (s.m_blendModes 0),
       .setBlendMode 1 (s.m_blendModes 1),
       .setBlendMode 2 (s.m_blendModes 2),
       .setBlendMode 3 (s.m_blendModes 3),
       .setBlendMode 4 (s.m_blendModes 4),
       .setBlendMode 5 (s.m_blendModes 5),
       .setBlendMode 6 (s.m_blendModes 6),
       .setBlendMode 7 (s.m_blendModes 7),
       .setMultisampleState { s.m_msState with sampleMask := sampleMask }] :=
  rfl

/-- C5: binding never mutates the object: the state coming out of
`BindToContext` is the state that went in, and two merges with different
masks differ only in the sample-mask field, each carrying its own caller
mask. -/
theorem bind_nonmutating (s : D3D11BlendState) (m1 m2 : Nat) :
    (s.BindToContext m1).1 = s ∧
      (s.BindToContext m2).1 = s ∧
      (s.mergedMsState m1).sampleMask = m1 ∧
      (s.mergedMsState m2).sampleMask = m2 ∧
      s.mergedMsState m2 = { s.mergedMsState m1 with sampleMask := m2 } :=
  ⟨rfl, rfl, rfl, rfl, rfl⟩

/-- C6: the constructed object persists no sample mask (the stored field is
the constant 0 placeholder), and the multisample state applied to the context
always carries the caller-supplied mask of that bind call. -/
theorem sampleMask_dynamic (desc : D3D11_BLEND_DESC) (sampleMask : Nat) :
    (D3D11BlendState.create desc).1.m_msState.sampleMask = 0 ∧
      ((D3D11BlendState.create desc).1.mergedMsState sampleMask).sampleMask =
        sampleMask ∧
      ((D3D11BlendState.create desc).1.BindToContext sampleMask).2.getLast? =
        some (.setMultisampleState
          ((D3D11BlendState.create desc).1.mergedMsState sampleMask)) :=
  ⟨rfl, rfl, rfl⟩

/-- C7: every resolved mode copies the source write mask through unchanged,
and toggling `BlendEnable` never changes the resolved write mask. -/
theorem writeMask_passthrough (bd : D3D11_RENDER_TARGET_BLEND_DESC)
    (e : Bool) :
    (DecodeBlendMode bd).1.writeMask = bd.RenderTargetWriteMask ∧
      (DecodeBlendMode { bd with BlendEnable := e }).1.writeMask =
        bd.RenderTargetWriteMask :=
  ⟨rfl, rfl⟩

/-- C8: the constant-blend-factor and inverse-constant-blend-factor source
values map to distinct native enumerants depending on `isAlpha`: constant
color versus constant alpha forms. -/
theorem constant_factor_alpha_distinct :
    (DecodeBlendFactor D3D11_BLEND_BLEND_FACTOR false).1 ≠
        (DecodeBlendFactor D3D11_BLEND_BLEND_FACTOR true).1 ∧
      (DecodeBlendFactor D3D11_BLEND_INV_BLEND_FACTOR false).1 ≠
        (DecodeBlendFactor D3D11_BLEND_INV_BLEND_FACTOR true).1 ∧
      (DecodeBlendFactor D3D11_BLEND_BLEND_FACTOR false).1 = .constantColor ∧
      (DecodeBlendFactor D3D11_BLEND_BLEND_FACTOR true).1 = .constantAlpha ∧
      (DecodeBlendFactor D3D11_BLEND_INV_BLEND_FACTOR false).1 =
        .oneMinusConstantColor ∧
      (DecodeBlendFactor D3D11_BLEND_INV_BLEND_FACTOR true).1 =
        .oneMinusConstantAlpha := by
  decide

/-- C9: `GetDesc` on a constructed object returns exactly the descriptor
passed at construction, for either setting of `IndependentBlendEnable`. -/
theorem getDesc_roundtrip (desc : D3D11_BLEND_DESC) :
    (D3D11BlendState.create desc).1.GetDesc = desc :=
  rfl

/-- C10: an out-of-domain enumerant is isolated to its own field: replacing
one factor (resp. op) field by an invalid value resolves exactly as the
original sub-record except that the corresponding resolved field becomes the
zero-factor (resp. add-op) default, while `BlendEnable` and the write mask
are always copied through verbatim. -/
theorem invalid_field_isolated (bd : D3D11_RENDER_TARGET_BLEND_DESC)
    (v w : Nat) (hv : v ∉ legalBlendFactors) (hw : w ∉ legalBlendOps) :
    (DecodeBlendMode { bd with SrcBlend := v }).1 =
        { (DecodeBlendMode bd).1 with colorSrcFactor := .zero } ∧
      (DecodeBlendMode { bd with DestBlend := v }).1 =
        { (DecodeBlendMode bd).1 with colorDstFactor := .zero } ∧
      (DecodeBlendMode { bd with BlendOp := w }).1 =
        { (DecodeBlendMode bd).1 with colorBlendOp := .add } ∧
      (DecodeBlendMode { bd with SrcBlendAlpha := v }).1 =
        { (DecodeBlendMode bd).1 with alphaSrcFactor := .zero } ∧
      (DecodeBlendMode { bd with DestBlendAlpha := v }).1 =
        { (DecodeBlendMode bd).1 with alphaDstFactor := .zero } ∧
      (DecodeBlendMode { bd with BlendOpAlpha := w }).1 =
        { (DecodeBlendMode bd).1 with alphaBlendOp := .add } ∧
      (DecodeBlendMode bd).1.enableBlending = bd.BlendEnable ∧
      (DecodeBlendMode bd).1.writeMask = bd.RenderTargetWriteMask := by
  refine ⟨?_, ?_, ?_, ?_, ?_, ?_, rfl, rfl⟩ <;>
    simp [DecodeBlendMode, DecodeBlendFactor_invalid _ _ hv,
      DecodeBlendOp_invalid _ hw]

/-- C10 witness: 13 is an out-of-domain blend factor and 0 an out-of-domain
blend op; the theorem applies to `rtSample` with them. -/
theorem invalid_field_isolated_witness :
    13 ∉ legalBlendFactors ∧ 0 ∉ legalBlendOps ∧
      ((DecodeBlendMode { rtSample with SrcBlend := 13 }).1 =
          { (DecodeBlendMode rtSample).1 with colorSrcFactor := .zero } ∧
        (DecodeBlendMode { rtSample with DestBlend := 13 }).1 =
          { (DecodeBlendMode rtSample).1 with colorDstFactor := .zero } ∧
        (DecodeBlendMode { rtSample with BlendOp := 0 }).1 =
          { (DecodeBlendMode rtSample).1 with colorBlendOp := .add } ∧
        (DecodeBlendMode { rtSample with SrcBlendAlpha := 13 }).1 =
          { (DecodeBlendMode rtSample).1 with alphaSrcFactor := .zero } ∧
        (DecodeBlendMode { rtSample with DestBlendAlpha := 13 }).1 =
          { (DecodeBlendMode rtSample).1 with alphaDstFactor := .zero } ∧
        (DecodeBlendMode { rtSample with BlendOpAlpha := 0 }).1 =
          { (DecodeBlendMode rtSample).1 with alphaBlendOp := .add } ∧
        (DecodeBlendMode rtSample).1.enableBlending = rtSample.BlendEnable ∧
        (DecodeBlendMode rtSample).1.writeMask =
          rtSample.RenderTargetWriteMask) :=
  ⟨by decide, by decide,
    invalid_field_isolated rtSample 13 0 (by decide) (by decide)⟩

end dxvk
